import Mathlib

/-!
Shallow embedding of the oztest REST API core: the geocoding-consistency and
region-ownership subsystem, the credential service, and the pagination helper.
JavaScript numbers are modelled as rationals; where NaN and undefined matter
(coordinate normalization) they are modelled explicitly. Database collections
are association lists keyed by the string id field.
-/

namespace Oztest

/-- A user document, as stored in the users collection. Region references are
stored as string ids (the schema declares the ref type as String), so the
populated-reference branch of the controllers is the identity here. -/
structure UserDoc where
  _id : String
  name : String
  email : String
  address : String
  /-- Stored in GeoJSON axis order: the pair is (longitude, latitude). -/
  coordinates : ℚ × ℚ
  regions : List String
  deriving DecidableEq, Repr

/-- Polygon geometry of a region: an array of linear rings of (lng, lat) pairs. -/
structure RegionGeometry where
  coordinates : List (List (ℚ × ℚ))
  deriving DecidableEq, Repr

/-- A region document. The name and geometry fields are optional at the
document level (a caller can construct the model without them), and are
checked by validateSync, mirroring validateBeforeSave being disabled. -/
structure RegionDoc where
  _id : String
  name : Option String
  user : String
  geometry : Option RegionGeometry
  deriving DecidableEq, Repr

/-- The persisted state: the users and regions collections. -/
structure DB where
  users : List UserDoc
  regions : List RegionDoc
  deriving DecidableEq, Repr

/-- Typed application error, from src/utils/errors.util.ts: message, HTTP
status code and error code. -/
structure AppError where
  message : String
  statusCode : Nat
  code : String
  deriving DecidableEq, Repr

/-- Constructor of BadRequestError (status 400). -/
def BadRequestError (message : String := "Bad Request") : AppError :=
  ⟨message, 400, "BAD_REQUEST"⟩

/-- Constructor of NotFoundError (status 404). -/
def NotFoundError (message : String := "Not Found") : AppError :=
  ⟨message, 404, "NOT_FOUND"⟩

/-- Constructor of ConflictError (status 409). -/
def ConflictError (message : String := "Conflict") : AppError :=
  ⟨message, 409, "CONFLICT"⟩

/-- A thrown JavaScript error: either a typed AppError, a plain Error (as the
model hooks and the geocoding library throw), or a MongoServerError. -/
inductive JsError where
  | app (e : AppError)
  | plain (message : String)
  | mongo (code : Nat) (codeName : String) (message : String)
  deriving DecidableEq, Repr

/-- Result of an operation against the database: the post-state (which on a
failure can retain intermediate writes that were already persisted) together
with either the handler result or the thrown error. -/
def OpResult (β : Type) : Type := DB × Except JsError β

/-- Look up a user document by id, as UserModel.findOne on the id field. -/
def findUser (db : DB) (i : String) : Option UserDoc :=
  db.users.find? (fun u => u._id == i)

/-- Look up a region document by id, as RegionModel.findOne on the id field. -/
def findRegion (db : DB) (i : String) : Option RegionDoc :=
  db.regions.find? (fun r => r._id == i)

/-- Persist a changed user document (user.save on an existing document):
replace the stored document that has the same id. -/
def saveUser (db : DB) (u : UserDoc) : DB :=
  { db with users := db.users.map (fun v => if v._id == u._id then u else v) }

/- ### Pagination helper (PaginationUtil.paginate) -/

/-- Pagination metadata, from the PaginationMeta interface. -/
structure PaginationMeta where
  currentPage : Nat
  itemsPerPage : Nat
  totalItems : Nat
  totalPages : Nat
  hasNextPage : Bool
  hasPreviousPage : Bool
  deriving DecidableEq, Repr

/-- A paginated response: the data page plus its metadata. -/
structure PaginatedResponse (α : Type) where
  data : List α
  meta : PaginationMeta
  deriving DecidableEq, Repr

/-- PaginationUtil.paginate: skip (page - 1) * limit documents of the filtered
collection, take limit documents, and report ceil-division page counts.
Math.ceil(totalItems / limit) on naturals is (totalItems + limit - 1) / limit.
The model query find(filter).skip(skip).limit(limit) is filter-drop-take over
the collection in stored order (no sortBy given). -/
def paginate {α : Type} (docs : List α) (filter : α → Bool)
    (page limit : Nat) : PaginatedResponse α :=
  let skip := (page - 1) * limit
  let filtered := docs.filter filter
  let data := (filtered.drop skip).take limit
  let totalItems := filtered.length
  let totalPages := (totalItems + limit - 1) / limit
  { data := data
    meta :=
      { currentPage := page
        itemsPerPage := limit
        totalItems := totalItems
        totalPages := totalPages
        hasNextPage := decide (page < totalPages)
        hasPreviousPage := decide (page > 1) } }

/- ### User list and delete (user.controller.ts getUsers, deleteUser) -/

/-- Response shape of the user list endpoint. -/
structure GetUsersResult where
  rows : List UserDoc
  page : Nat
  limit : Nat
  total : Nat
  deriving DecidableEq, Repr

/-- getUsers: fetches every user document with UserModel.find() and the
collection count, ignoring page and limit except to echo them back. The
region-reference mapping of the source is the identity because references
are stored as string ids. -/
def getUsers (db : DB) (page limit : Nat) : GetUsersResult :=
  let users := db.users
  let total := users.length
  if users.isEmpty then
    { rows := [], page := page, limit := limit, total := 0 }
  else
    { rows := users, page := page, limit := limit, total := total }

/-- deleteUser: UserModel.deleteOne on the id; NotFoundError when no document
matched. Nothing else is touched: the regions collection is not consulted. -/
def deleteUser (db : DB) (i : String) : OpResult Nat :=
  let deletedCount := if (findUser db i).isSome then 1 else 0
  let db' : DB := { db with users := db.users.eraseP (fun u => u._id == i) }
  if deletedCount == 0 then
    (db, .error (.app (NotFoundError "User not found")))
  else
    (db', .ok 200)

/- ### Geocoding client (GeoCoding, src/unnamed/part_020) -/

/-- A JavaScript number: a finite value (modelled as a rational) or NaN. -/
inductive JSNum where
  | num (q : ℚ)
  | nan
  deriving DecidableEq, Repr

/-- A JavaScript value in a coordinate-object field: either a number or some
value of another runtime type (string, null, object, and so on). -/
inductive JSVal where
  | n (x : JSNum)
  | notNum
  deriving DecidableEq, Repr

/-- The runtime shapes a LatLng argument can take when it reaches
coerceCoordinates: a string, a numeric tuple, an object keyed lat and lng, an
object keyed latitude and longitude, or any other shape. -/
inductive CoordInput where
  | str (s : String)
  | arr (a b : JSNum)
  | objLatLng (lat lng : JSVal)
  | objVerbose (latitude longitude : JSVal)
  | other
  deriving DecidableEq, Repr

/-- Output of coerceCoordinates. A field is none when the JavaScript result
would carry undefined there (possible in the string branch when the split
produced fewer than two parts, since Number.isNaN(undefined) is false). -/
structure CoercedCoords where
  latitude : Option JSNum
  longitude : Option JSNum
  deriving DecidableEq, Repr

/-- Is this optional number the value NaN? Number.isNaN returns false on
undefined and on every non-NaN number. -/
def isNaNopt : Option JSNum → Bool
  | some .nan => true
  | _ => false

/-- Accumulator pass of the JavaScript string split on a comma separator. -/
def splitOnCommaAux (acc : List Char) : List Char → List String
  | [] => [String.mk acc.reverse]
  | c :: rest =>
      if c = ',' then String.mk acc.reverse :: splitOnCommaAux [] rest
      else splitOnCommaAux (c :: acc) rest

/-- JavaScript coords.split with a comma separator: the comma-separated parts
of the string, where an empty string yields one empty part. -/
def jsSplitComma (s : String) : List String :=
  splitOnCommaAux [] s.toList

/-- GeoCoding.coerceCoordinates. The parseNum parameter stands for the
JavaScript Number() conversion applied to each comma-separated part of a
string input; the ts-pattern match arms are tried in source order. Note the
array arm binds the FIRST tuple element to latitude, and the object arms fall
through to the final arm (which throws) when a field is not a number. -/
def coerceCoordinates (parseNum : String → JSNum) :
    CoordInput → Except String CoercedCoords
  | .str s =>
      let nums := (jsSplitComma s).map parseNum
      let latitude := nums.get? 0
      let longitude := nums.get? 1
      if isNaNopt latitude || isNaNopt longitude then
        .error "Invalid string coordinates format"
      else
        .ok ⟨latitude, longitude⟩
  | .arr a b =>
      if a == .nan || b == .nan then
        .error "Invalid array coordinates format"
      else
        .ok ⟨some a, some b⟩
  | .objLatLng (.n lat) (.n lng) => .ok ⟨some lat, some lng⟩
  | .objVerbose (.n latitude) (.n longitude) => .ok ⟨some latitude, some longitude⟩
  | _ => .error "Invalid coordinates"

/-- One provider candidate: formatted address plus the geometry.location
fields, which the provider types as plain numbers (lat, lng). -/
structure GeocodeResult where
  formatted_address : String
  lat : ℚ
  lng : ℚ
  deriving DecidableEq, Repr

/-- The coordinate-distance heuristic of findNearestLocationMatch: sum of the
absolute latitude and longitude differences. -/
def l1Distance (aLat aLng bLat bLng : ℚ) : ℚ :=
  |aLat - bLat| + |aLng - bLng|

/-- The rankedResults list of findNearestLocationMatch: candidates stably
sorted by ascending L1 distance to the query (the source uses toSorted with a
subtraction comparator, a stable ascending sort; insertion sort is stable, so
it coincides with any stable sort under the same key). -/
def rankedByDistance (results : List GeocodeResult) (qLat qLng : ℚ) : List GeocodeResult :=
  results.insertionSort
    (fun a b => l1Distance a.lat a.lng qLat qLng ≤ l1Distance b.lat b.lng qLat qLng)

/-- GeoCoding.findNearestLocationMatch. A string query is matched only by
formatted-address equality and throws when no candidate matches. A coordinate
query first looks for exact coordinate equality; otherwise the LAST element
of the ascending distance-sorted candidate list is taken. -/
def findNearestLocationMatch (results : List GeocodeResult) :
    String ⊕ ℚ × ℚ → Except String GeocodeResult
  | .inl s =>
      match results.find? (fun r => r.formatted_address == s) with
      | some m => .ok m
      | none => .error "No match found"
  | .inr (qLat, qLng) =>
      match results.find? (fun r => r.lat == qLat && r.lng == qLng) with
      | some m => .ok m
      | none =>
          match (rankedByDistance results qLat qLng).getLast? with
          | some m => .ok m
          | none => .error "No match found"

/- ### Credential service (ApiKeyService, src/src/auth/api-key.service.ts) -/

/-- Value of a hexadecimal digit character, or none for a non-hex character. -/
def hexDigitVal? (c : Char) : Option Nat :=
  if '0' ≤ c ∧ c ≤ '9' then some (c.toNat - '0'.toNat)
  else if 'a' ≤ c ∧ c ≤ 'f' then some (c.toNat - 'a'.toNat + 10)
  else if 'A' ≤ c ∧ c ≤ 'F' then some (c.toNat - 'A'.toNat + 10)
  else none

/-- Node Buffer.from(s, hex semantics): decode pairs of hex digits into bytes,
stopping (and truncating) at the first invalid or incomplete pair. -/
def hexDecodeBytes : List Char → List Nat
  | [] => []
  | [_] => []
  | c1 :: c2 :: rest =>
      match hexDigitVal? c1, hexDigitVal? c2 with
      | some h1, some h2 => (16 * h1 + h2) :: hexDecodeBytes rest
      | _, _ => []

/-- Node crypto.timingSafeEqual: throws a RangeError when the two buffers
differ in byte length, otherwise reports byte-for-byte equality. -/
def timingSafeEqual (a b : List Nat) : Except String Bool :=
  if a.length ≠ b.length then
    .error "Input buffers must have the same byte length"
  else
    .ok (a == b)

/-- The shape guaranteed for crypto sha256 hex digests, which the hash method
of ApiKeyService produces: 64 characters, all hexadecimal digits. The hash
primitive itself is external library code and is kept as a parameter
constrained by this predicate. -/
def sha256HexShape (hashFn : String → String) : Prop :=
  ∀ s : String, (hashFn s).toList.length = 64 ∧
    ∀ c ∈ (hashFn s).toList, (hexDigitVal? c).isSome

/-- ApiKeyService.verify: re-hash the candidate, hex-decode both strings into
buffers, and compare with timingSafeEqual. There is no try/catch around the
comparison, so a RangeError from timingSafeEqual propagates to the caller. -/
def ApiKeyService.verify (hashFn : String → String)
    (providedApiKey storedHashedApiKey : String) : Except String Bool :=
  timingSafeEqual (hexDecodeBytes (hashFn providedApiKey).toList)
    (hexDecodeBytes storedHashedApiKey.toList)

/- ### User pre-save hook (models/index.ts and models/base.model.ts) -/

/-- A call made against the geocoding client, recorded so that theorems can
state which lookups a save performed. -/
inductive GeoCall where
  | forward (address : String)
  | reverse (coordinates : ℚ × ℚ)
  deriving DecidableEq, Repr

/-- The external geocoding client as the hooks consume it: reverse lookup
yields the formatted address of the selected candidate, forward lookup yields
its lat and lng; either can fail with a provider error message. -/
structure Geocoder where
  reverseGeo : ℚ × ℚ → Except String String
  forwardGeo : String → Except String (ℚ × ℚ)

/-- The User pre-save hook: when the coordinates path is modified, reverse
geocode and overwrite the address with the formatted result; otherwise, when
the address path is modified, forward geocode and overwrite the coordinates
with (lng, lat); otherwise do nothing. A geocoding failure aborts the save
with the provider error (a plain Error). The second component records the
geocoding calls made. -/
def userPreSaveHook (geo : Geocoder) (modifiedCoordinates modifiedAddress : Bool)
    (u : UserDoc) : Except String UserDoc × List GeoCall :=
  if modifiedCoordinates then
    match geo.reverseGeo u.coordinates with
    | .error e => (.error e, [.reverse u.coordinates])
    | .ok addr => (.ok { u with address := addr }, [.reverse u.coordinates])
  else if modifiedAddress then
    match geo.forwardGeo u.address with
    | .error e => (.error e, [.forward u.address])
    | .ok (lat, lng) => (.ok { u with coordinates := (lng, lat) }, [.forward u.address])
  else
    (.ok u, [])

/- ### User create and update (user.controller.ts) -/

/-- Body of a user creation request. Exactly one of address and coordinates is
supplied by callers in practice, but the model does not assume it. -/
structure CreateUserBody where
  name : String
  email : String
  address : Option String
  coordinates : Option (ℚ × ℚ)
  deriving DecidableEq, Repr

/-- The update object of an update request: every field optional. -/
structure UpdateUserBody where
  name : Option String
  email : Option String
  address : Option String
  coordinates : Option (ℚ × ℚ)
  deriving DecidableEq, Repr

/-- Result of createUser: the persisted user document and the raw api key. -/
structure CreateUserResult where
  user : UserDoc
  apiKey : String
  deriving DecidableEq, Repr

/-- JavaScript truthiness of an optional string field: undefined and the
empty string are falsy, every other string is truthy. (An optional array
field is truthy exactly when present, arrays being objects.) -/
def jsTruthyStr : Option String → Bool
  | some s => !(s == "")
  | none => false

/-- The validate-before-save step Mongoose registers as the FIRST pre-save
hook (so it runs before the geocoding hook and does not see that hook's
writes): the required String paths name, email and address fail when unset or
empty (an unset string path is the empty string in this model), while the
required array path coordinates is auto-initialized by Mongoose and passes
its required check even when the caller supplied no value. Returns the first
failure, or none. -/
def userValidateSync (u : UserDoc) : Option String :=
  if u.name == "" then some "Path name is required."
  else if u.email == "" then some "Path email is required."
  else if u.address == "" then some "Path address is required."
  else none

/-- createUser: build the document (an absent address is the unset empty
string, absent coordinates auto-initialize), then save: validation runs
first - a coordinates-only body fails the required-address check before any
geocoding - then the pre-save hook (whose modified flags are exactly the
supplied fields of a new document) geocodes, and the document is inserted on
success. The catch block maps a duplicate-key MongoServerError to
ConflictError, a not-writable-primary error to a 503 AppError, rethrows
AppErrors, and downgrades every other error - the ValidationError as well as
the plain Error a failed geocoding lookup throws inside the hook - to
BadRequestError with the fixed message "Failed to create user". -/
def createUser (geo : Geocoder) (db : DB) (body : CreateUserBody)
    (newId apiKey : String) : OpResult CreateUserResult :=
  let u : UserDoc :=
    { _id := newId
      name := body.name
      email := body.email
      address := body.address.getD ""
      coordinates := body.coordinates.getD (0, 0)
      regions := [] }
  match userValidateSync u with
  | some _ =>
      (db, .error (.app (BadRequestError "Failed to create user")))
  | none =>
      match (userPreSaveHook geo body.coordinates.isSome body.address.isSome u).1 with
      | .error _ =>
          (db, .error (.app (BadRequestError "Failed to create user")))
      | .ok u' =>
          ({ db with users := db.users ++ [u'] }, .ok { user := u', apiKey := apiKey })

/-- Mongoose marks a path as modified when an assignment changed its value. -/
def assignedAndChanged {α : Type} [BEq α] (assigned : Option α) (old : α) : Bool :=
  match assigned with
  | some a => a != old
  | none => false

/-- Object.assign(user, update): every present field of the update object
overwrites the corresponding document field. -/
def applyUpdate (u : UserDoc) (upd : UpdateUserBody) : UserDoc :=
  { u with
    name := upd.name.getD u.name
    email := upd.email.getD u.email
    address := upd.address.getD u.address
    coordinates := upd.coordinates.getD u.coordinates }

/-- updateUser: look the user up (NotFoundError when absent). The two
conversion guards are JavaScript truthiness tests - update.address and
!update.coordinates - so an empty-string address is falsy and skips the
forward branch (and does not block the reverse branch). When the update
carries a truthy address and no coordinates, forward geocode it - a failure
is caught and rethrown as BadRequestError with the provider message appended
to "Invalid address: " - and store the result as (lng, lat) coordinates on
the update object; when it carries coordinates and no truthy address, reverse
geocode with "Invalid coordinates: " on failure. The updated document is then
assigned and saved: validation runs first (its ValidationError propagates
uncaught, there being no try/catch around save), then the pre-save hook fires
on the changed paths, and an error it throws (a plain Error from a failed
in-hook geocode) propagates uncaught as well. -/
def updateUser (geo : Geocoder) (db : DB) (i : String)
    (update : UpdateUserBody) : OpResult Nat :=
  match findUser db i with
  | none => (db, .error (.app (NotFoundError "User not found")))
  | some u =>
      let step : Except JsError UpdateUserBody :=
        if jsTruthyStr update.address && !update.coordinates.isSome then
          match geo.forwardGeo (update.address.getD "") with
          | .error m => .error (.app (BadRequestError ("Invalid address: " ++ m)))
          | .ok (lat, lng) => .ok { update with coordinates := some (lng, lat) }
        else if update.coordinates.isSome && !(jsTruthyStr update.address) then
          match geo.reverseGeo (update.coordinates.getD (0, 0)) with
          | .error m => .error (.app (BadRequestError ("Invalid coordinates: " ++ m)))
          | .ok addr => .ok { update with address := some addr }
        else
          .ok update
      match step with
      | .error e => (db, .error e)
      | .ok update' =>
          let u1 := applyUpdate u update'
          match userValidateSync u1 with
          | some vmsg => (db, .error (.plain vmsg))
          | none =>
              let mC := assignedAndChanged update'.coordinates u.coordinates
              let mA := assignedAndChanged update'.address u.address
              match (userPreSaveHook geo mC mA u1).1 with
              | .error m => (db, .error (.plain m))
              | .ok u2 => (saveUser db u2, .ok 201)

/- ### Region pre-save hook and save (models/index.ts Region) -/

/-- Region.validateSync under the schema: name, user and geometry are
required. The user field is a string in the model, so only name and geometry
can be missing. Returns the first validation failure, or none. -/
def regionValidateSync (r : RegionDoc) : Option String :=
  if r.name.isNone then some "name required"
  else if r.geometry.isNone then some "geometry required"
  else none

/-- Saving a new region document. The pre-save hook loads the owning user
(aborting with a plain Error when absent), appends the region id to the
owner's region list and persists that user change immediately - the save call
shares no transaction with the region insert at any call site - and only then
does next(validateSync()) run: a validation failure aborts the region's own
insert, but the already-persisted owner-list entry remains. On success the
region document is inserted. The returned state is the post-state, paired
with the error if one was thrown. -/
def regionSave (db : DB) (r : RegionDoc) : DB × Option JsError :=
  match findUser db r.user with
  | none => (db, some (.plain "User not found"))
  | some u =>
      let db1 := saveUser db { u with regions := u.regions ++ [r._id] }
      match regionValidateSync r with
      | some m => (db1, some (.plain m))
      | none => ({ db1 with regions := db1.regions ++ [r] }, none)

/- ### Region controllers (modules/regions/region.controller.ts) -/

/-- Body of a region creation request (name and geometry, schema-validated). -/
structure CreateRegionBody where
  name : Option String
  geometry : Option RegionGeometry
  deriving DecidableEq, Repr

/-- createRegion: check that the owner exists (NotFoundError otherwise),
construct the region for that owner and save it. The catch block rethrows
AppErrors and wraps any other error message into BadRequestError prefixed
with "Failed to create region: ". -/
def createRegion (db : DB) (userId : String) (body : CreateRegionBody)
    (newId : String) : OpResult RegionDoc :=
  match findUser db userId with
  | none => (db, .error (.app (NotFoundError "User not found")))
  | some _ =>
      let r : RegionDoc :=
        { _id := newId, name := body.name, user := userId, geometry := body.geometry }
      match regionSave db r with
      | (db', none) => (db', .ok r)
      | (db', some (.app e)) => (db', .error (.app e))
      | (db', some (.plain m)) =>
          (db', .error (.app (BadRequestError ("Failed to create region: " ++ m))))
      | (db', some (.mongo c _codeName m)) =>
          if c == 11000 then
            (db', .error (.app (BadRequestError "Region with this name already exists for this user")))
          else
            (db', .error (.app (BadRequestError ("Failed to create region: " ++ m))))

/-- getRegionById: fetch a region document, NotFoundError when absent. -/
def getRegionById (db : DB) (i : String) : Except JsError RegionDoc :=
  match findRegion db i with
  | none => .error (.app (NotFoundError "Region not found"))
  | some r => .ok r

/-- deleteRegion: locate the region (NotFoundError when absent); when its
owner exists, filter the region id out of the owner's list and save the
owner; finally delete the region document. -/
def deleteRegion (db : DB) (i : String) : OpResult Nat :=
  match findRegion db i with
  | none => (db, .error (.app (NotFoundError "Region not found")))
  | some r =>
      let db1 :=
        match findUser db r.user with
        | some u => saveUser db { u with regions := u.regions.filter (fun s => s != i) }
        | none => db
      let db2 : DB := { db1 with regions := db1.regions.eraseP (fun x => x._id == i) }
      (db2, .ok 200)

/- ### Concrete fixtures used by witnesses and counterexamples -/

/-- A sample stored user. -/
def sampleUser : UserDoc :=
  { _id := "u1", name := "Alice", email := "alice-at-example.com",
    address := "1 Main St", coordinates := (10, 20), regions := [] }

/-- A closed five-point polygon ring. -/
def sampleGeometry : RegionGeometry :=
  ⟨[[(0, 0), (0, 1), (1, 1), (1, 0), (0, 0)]]⟩

/-- A sample region owned by the sample user. -/
def sampleRegion : RegionDoc :=
  { _id := "r1", name := some "Downtown", user := "u1", geometry := some sampleGeometry }

/-- A database with the sample user (owning nothing) and no regions. -/
def dbOneUser : DB := ⟨[sampleUser], []⟩

/-- A database where the sample user owns the sample region. -/
def dbUserWithRegion : DB :=
  ⟨[{ sampleUser with regions := ["r1"] }], [sampleRegion]⟩

/-- A geocoder double whose lookups always succeed with fixed values: forward
resolves to latitude 40, longitude -73, reverse to a fixed address. -/
def geoFixed : Geocoder :=
  { reverseGeo := fun _ => .ok "Resolved Address"
    forwardGeo := fun _ => .ok (40, -73) }

/-- A geocoder double whose forward lookup fails with the message boom. -/
def geoFailFwd : Geocoder :=
  { reverseGeo := fun _ => .ok "Resolved Address"
    forwardGeo := fun _ => .error "boom" }

/-- A geocoder double whose reverse lookup fails with the message boom. -/
def geoFailRev : Geocoder :=
  { reverseGeo := fun _ => .error "boom"
    forwardGeo := fun _ => .ok (40, -73) }

/-- A creation body supplying an address and no coordinates. -/
def bodyAddrOnly : CreateUserBody :=
  { name := "Alice", email := "alice-at-example.com",
    address := some "1 Main St", coordinates := none }

/-- A creation body supplying coordinates and no address. -/
def bodyCoordsOnly : CreateUserBody :=
  { name := "Alice", email := "alice-at-example.com",
    address := none, coordinates := some (3, 4) }

/-- An update body supplying only an address. -/
def updAddrOnly : UpdateUserBody :=
  { name := none, email := none, address := some "2 Oak Ave", coordinates := none }

/-- A 64-character hex string, the shape of a sha256 hex digest. -/
def hex64 : String := String.mk (List.replicate 64 'a')

/-- A stand-in for the external sha256 hex digest function: it has the digest
shape (64 hex characters) required of any instantiation. -/
def constHash : String → String := fun _ => hex64

/-- A stand-in for the JavaScript Number() conversion: parses the two digit
strings used by the witnesses and yields NaN on everything else. -/
def parseNumFixture : String → JSNum := fun s =>
  if s = "1" then .num 1 else if s = "2" then .num 2 else .nan

/-- Candidate result at distance 2 from the origin query. -/
def resultNear : GeocodeResult := ⟨"Near Result", 1, 1⟩

/-- Candidate result at distance 10 from the origin query. -/
def resultFar : GeocodeResult := ⟨"Far Result", 5, 5⟩

/-! ## Theorems -/

/-- C10: the user list operation returns every user document in the collection
as rows; the page and limit arguments do not restrict which rows are returned,
they are only echoed back in the response alongside the full total. -/
theorem getUsers_returns_all_rows (db : DB) (page limit : Nat) :
    (getUsers db page limit).rows = db.users ∧
    (getUsers db page limit).page = page ∧
    (getUsers db page limit).limit = limit ∧
    (getUsers db page limit).total = db.users.length := by
  cases h : db.users with
  | nil => simp [getUsers, h]
  | cons a l => simp [getUsers, h]

/-- C9 counterexample: deleting the sample user succeeds, yet the region it
owns survives in the regions collection with its owner reference pointing at
the deleted user id - refuting the claim that no region document whose owner
reference is the deleted user remains. -/
theorem deleteUser_leaves_owned_region :
    (deleteUser dbUserWithRegion "u1").2 = .ok 200 ∧
    sampleRegion ∈ (deleteUser dbUserWithRegion "u1").1.regions ∧
    sampleRegion.user = "u1" ∧
    findUser (deleteUser dbUserWithRegion "u1").1 "u1" = none := by
  refine ⟨rfl, ?_, rfl, rfl⟩
  decide

/-- C9 amended: user deletion removes only the user document. The regions
collection is never consulted, so every region document - including those
whose owner reference is the deleted user - remains; the operation succeeds
exactly when the user existed and otherwise fails with NotFoundError leaving
the state unchanged. -/
theorem deleteUser_regions_untouched (db : DB) (i : String) :
    (deleteUser db i).1.regions = db.regions ∧
    ((deleteUser db i).2 = .ok 200 ↔ (findUser db i).isSome = true) ∧
    ((findUser db i).isSome = true →
      (deleteUser db i).1.users = db.users.eraseP (fun u => u._id == i)) ∧
    ((findUser db i).isSome = false →
      deleteUser db i = (db, .error (.app (NotFoundError "User not found")))) := by
  unfold deleteUser
  cases h : (findUser db i).isSome with
  | false => simp [h]
  | true => simp [h]

/-- C9 amended witness: instance of the amended statement at the concrete
database where the sample user owns the sample region. -/
theorem deleteUser_regions_untouched_witness :
    (deleteUser dbUserWithRegion "u1").1.regions = dbUserWithRegion.regions ∧
    (deleteUser dbUserWithRegion "u1").1.users =
      dbUserWithRegion.users.eraseP (fun u => u._id == "u1") := by
  have h := deleteUser_regions_untouched dbUserWithRegion "u1"
  exact ⟨h.1, h.2.2.1 (by decide)⟩

/-- C1: evaluating the region save at the failing input of the repository's
own rollback test (an existing owner, a region body missing its required name
and geometry). The save fails, yet the owner's already-persisted region list
now references the region id while no region document exists: the persisted
partial state that the claim - and the test suite - say must not survive. -/
theorem regionSave_rollback_violation :
    ((regionSave dbOneUser { _id := "r1", name := none, user := "u1", geometry := none }).2).isSome = true ∧
    (∃ u, findUser (regionSave dbOneUser { _id := "r1", name := none, user := "u1", geometry := none }).1 "u1" = some u ∧
      "r1" ∈ u.regions) ∧
    findRegion (regionSave dbOneUser { _id := "r1", name := none, user := "u1", geometry := none }).1 "r1" = none := by
  refine ⟨rfl, ⟨{ sampleUser with regions := ["r1"] }, ?_, by decide⟩, rfl⟩
  decide

/-- C2: the user pre-save hook keeps address and coordinates consistent: a
save where only the address was modified performs exactly one forward
geocoding call and overwrites the coordinates with the result in (lng, lat)
order; a save where the coordinates were modified performs exactly one
reverse geocoding call and overwrites the address with the formatted result;
a save where neither was modified performs no geocoding call and changes
nothing. -/
theorem userPreSaveHook_consistency (geo : Geocoder) (mC mA : Bool) (u : UserDoc) :
    (mA = true → mC = false → ∀ lat lng : ℚ, geo.forwardGeo u.address = .ok (lat, lng) →
      userPreSaveHook geo mC mA u =
        (.ok { u with coordinates := (lng, lat) }, [.forward u.address])) ∧
    (mC = true → ∀ addr : String, geo.reverseGeo u.coordinates = .ok addr →
      userPreSaveHook geo mC mA u =
        (.ok { u with address := addr }, [.reverse u.coordinates])) ∧
    (mC = false → mA = false → userPreSaveHook geo mC mA u = (.ok u, [])) := by
  refine ⟨?_, ?_, ?_⟩
  · intro hA hC lat lng hgeo
    subst hA; subst hC
    simp [userPreSaveHook, hgeo]
  · intro hC addr hgeo
    subst hC
    simp [userPreSaveHook, hgeo]
  · intro hC hA
    subst hC; subst hA
    simp [userPreSaveHook]

/-- C2 witness: the hook evaluated with the fixed geocoder double on the
sample user, in each of the three modification situations. -/
theorem userPreSaveHook_consistency_witness :
    userPreSaveHook geoFixed false true sampleUser =
      (.ok { sampleUser with coordinates := (-73, 40) }, [.forward "1 Main St"]) ∧
    userPreSaveHook geoFixed true false sampleUser =
      (.ok { sampleUser with address := "Resolved Address" }, [.reverse (10, 20)]) ∧
    userPreSaveHook geoFixed false false sampleUser = (.ok sampleUser, []) := by
  refine ⟨?_, ?_, ?_⟩
  · exact (userPreSaveHook_consistency geoFixed false true sampleUser).1 rfl rfl 40 (-73) rfl
  · exact (userPreSaveHook_consistency geoFixed true false sampleUser).2.1 rfl "Resolved Address" rfl
  · exact (userPreSaveHook_consistency geoFixed false false sampleUser).2.2 rfl rfl

/-- C3 counterexample: a user creation whose forward geocoding fails with the
provider message boom aborts with BadRequestError, but the error message is
the fixed string "Failed to create user": the provider message is not carried
(it is not even an infix of the surfaced message), refuting the claim for the
create path. The stored state is unchanged. -/
theorem createUser_drops_provider_message :
    createUser geoFailFwd dbOneUser bodyAddrOnly "u9" "key" =
      (dbOneUser, .error (.app (BadRequestError "Failed to create user"))) ∧
    ¬ ("boom".toList <:+: "Failed to create user".toList) := by
  exact ⟨rfl, by decide⟩

/-- Validation of a document whose address path is unset or empty always
fails (on the address check, or earlier on name or email). -/
theorem userValidateSync_address_empty (u : UserDoc) (h : u.address = "") :
    ∃ msg, userValidateSync u = some msg := by
  unfold userValidateSync
  cases hb1 : (u.name == "") <;> cases hb2 : (u.email == "") <;>
    simp [hb1, hb2, h]

/-- C3 amended: a geocoding failure always aborts the operation with the
stored user state unchanged, but the surfaced error differs by path: the
controller-level lookup of a truthy-address-only or coordinates-only update
fails with BadRequestError carrying the provider message; a failure inside
the pre-save hook during a validation-passing creation is downgraded to
BadRequestError with the fixed message "Failed to create user" (the provider
message is dropped); a creation without a truthy address never geocodes at
all - the required-address validation that runs before the hook aborts it
with the same fixed BadRequestError for every geocoder; and a failure inside
the pre-save hook during an update propagates as the plain provider error,
not a BadRequestError-class error. -/
theorem geocoding_failure_aborts (geo : Geocoder) (db : DB) :
    (∀ (body : CreateUserBody) (newId apiKey a m : String),
      body.name ≠ "" → body.email ≠ "" →
      body.address = some a → a ≠ "" → body.coordinates = none →
      geo.forwardGeo a = .error m →
      createUser geo db body newId apiKey =
        (db, .error (.app (BadRequestError "Failed to create user")))) ∧
    (∀ (body : CreateUserBody) (newId apiKey a m : String) (c : ℚ × ℚ),
      body.name ≠ "" → body.email ≠ "" →
      body.address = some a → a ≠ "" → body.coordinates = some c →
      geo.reverseGeo c = .error m →
      createUser geo db body newId apiKey =
        (db, .error (.app (BadRequestError "Failed to create user")))) ∧
    (∀ (geoAny : Geocoder) (body : CreateUserBody) (newId apiKey : String),
      jsTruthyStr body.address = false →
      createUser geoAny db body newId apiKey =
        (db, .error (.app (BadRequestError "Failed to create user")))) ∧
    (∀ (i : String) (u : UserDoc) (update : UpdateUserBody) (a m : String),
      findUser db i = some u → update.address = some a → a ≠ "" →
      update.coordinates = none → geo.forwardGeo a = .error m →
      updateUser geo db i update =
        (db, .error (.app (BadRequestError ("Invalid address: " ++ m))))) ∧
    (∀ (i : String) (u : UserDoc) (update : UpdateUserBody) (m : String) (c : ℚ × ℚ),
      findUser db i = some u → update.coordinates = some c →
      jsTruthyStr update.address = false → geo.reverseGeo c = .error m →
      updateUser geo db i update =
        (db, .error (.app (BadRequestError ("Invalid coordinates: " ++ m))))) ∧
    (∀ (i : String) (u : UserDoc) (update : UpdateUserBody) (m : String) (c : ℚ × ℚ),
      findUser db i = some u → jsTruthyStr update.address = true →
      update.coordinates = some c → c ≠ u.coordinates →
      userValidateSync (applyUpdate u update) = none →
      geo.reverseGeo c = .error m →
      updateUser geo db i update = (db, .error (.plain m))) := by
  refine ⟨?_, ?_, ?_, ?_, ?_, ?_⟩
  · intro body newId apiKey a m hn he hA ha hC hgeo
    have hn2 : (body.name == "") = false := beq_eq_false_iff_ne.mpr hn
    have he2 : (body.email == "") = false := beq_eq_false_iff_ne.mpr he
    have ha2 : (a == "") = false := beq_eq_false_iff_ne.mpr ha
    simp [createUser, userValidateSync, userPreSaveHook, hA, hC, hgeo, hn2, he2, ha2]
  · intro body newId apiKey a m c hn he hA ha hC hgeo
    have hn2 : (body.name == "") = false := beq_eq_false_iff_ne.mpr hn
    have he2 : (body.email == "") = false := beq_eq_false_iff_ne.mpr he
    have ha2 : (a == "") = false := beq_eq_false_iff_ne.mpr ha
    simp [createUser, userValidateSync, userPreSaveHook, hA, hC, hgeo, hn2, he2, ha2]
  · intro geoAny body newId apiKey hfalse
    have haddr : body.address.getD "" = "" := by
      cases h : body.address with
      | none => rfl
      | some s =>
        rw [h] at hfalse
        simp only [jsTruthyStr, Bool.not_eq_false'] at hfalse
        simp [beq_iff_eq.mp hfalse]
    obtain ⟨msg, hmsg⟩ := userValidateSync_address_empty
      { _id := newId, name := body.name, email := body.email,
        address := body.address.getD "", coordinates := body.coordinates.getD (0, 0),
        regions := [] } haddr
    simp only [createUser]
    rw [hmsg]
  · intro i u update a m hu hA ha hC hgeo
    have ht : jsTruthyStr (some a) = true := by
      simp [jsTruthyStr, beq_eq_false_iff_ne.mpr ha]
    simp [updateUser, hu, hA, hC, ht, hgeo]
  · intro i u update m c hu hC hfalse hgeo
    simp [updateUser, hu, hC, hfalse, hgeo]
  · intro i u update m c hu htrue hC hne hval hgeo
    simp only [applyUpdate, hC, Option.getD_some] at hval
    simp only [updateUser, hu, htrue, hC]
    simp only [Option.isSome_some, Bool.true_and, Bool.and_false, Bool.false_and,
      Bool.and_true, Bool.not_true, if_false, ite_false]
    simp [hval, applyUpdate, assignedAndChanged, userPreSaveHook, hC, hne, hgeo,
      bne_iff_ne]

/-- C3 amended witness: each path evaluated at concrete inputs against the
geocoder doubles and the one-user database: the create-path message drop, the
validation block of a coordinates-only creation (under a geocoder that never
fails), both controller update branches, and the uncaught in-hook failure. -/
theorem geocoding_failure_aborts_witness :
    createUser geoFailFwd dbOneUser bodyAddrOnly "u9" "key" =
      (dbOneUser, .error (.app (BadRequestError "Failed to create user"))) ∧
    createUser geoFixed dbOneUser bodyCoordsOnly "u9" "key" =
      (dbOneUser, .error (.app (BadRequestError "Failed to create user"))) ∧
    updateUser geoFailFwd dbOneUser "u1" updAddrOnly =
      (dbOneUser, .error (.app (BadRequestError "Invalid address: boom"))) ∧
    updateUser geoFailRev dbOneUser "u1"
        { name := none, email := none, address := none, coordinates := some (3, 4) } =
      (dbOneUser, .error (.app (BadRequestError "Invalid coordinates: boom"))) ∧
    updateUser geoFailRev dbOneUser "u1"
        { name := none, email := none, address := some "2 Oak Ave", coordinates := some (3, 4) } =
      (dbOneUser, .error (.plain "boom")) := by
  refine ⟨?_, ?_, ?_, ?_, ?_⟩
  · exact (geocoding_failure_aborts geoFailFwd dbOneUser).1 bodyAddrOnly "u9" "key"
      "1 Main St" "boom" (by decide) (by decide) rfl (by decide) rfl rfl
  · exact (geocoding_failure_aborts geoFixed dbOneUser).2.2.1 geoFixed bodyCoordsOnly
      "u9" "key" rfl
  · exact (geocoding_failure_aborts geoFailFwd dbOneUser).2.2.2.1 "u1" sampleUser
      updAddrOnly "2 Oak Ave" "boom" rfl rfl (by decide) rfl rfl
  · exact (geocoding_failure_aborts geoFailRev dbOneUser).2.2.2.2.1 "u1" sampleUser
      { name := none, email := none, address := none, coordinates := some (3, 4) }
      "boom" (3, 4) rfl rfl rfl rfl
  · exact (geocoding_failure_aborts geoFailRev dbOneUser).2.2.2.2.2 "u1" sampleUser
      { name := none, email := none, address := some "2 Oak Ave", coordinates := some (3, 4) }
      "boom" (3, 4) rfl (by decide) rfl (by norm_num [sampleUser]) rfl rfl

/-- Decoding a list of hex-digit characters yields one byte per digit pair. -/
theorem hexDecodeBytes_length : ∀ l : List Char,
    (∀ c ∈ l, (hexDigitVal? c).isSome) → (hexDecodeBytes l).length = l.length / 2
  | [] => fun _ => rfl
  | [c] => fun _ => by simp [hexDecodeBytes]
  | c1 :: c2 :: rest => fun h => by
      have h1 := h c1 (List.mem_cons_self _ _)
      have h2 := h c2 (List.mem_cons_of_mem _ (List.mem_cons_self _ _))
      obtain ⟨v1, hv1⟩ := Option.isSome_iff_exists.mp h1
      obtain ⟨v2, hv2⟩ := Option.isSome_iff_exists.mp h2
      have ih := hexDecodeBytes_length rest (fun c hc => h c (by simp [hc]))
      simp only [hexDecodeBytes, hv1, hv2, List.length_cons, ih]
      omega

/-- C4 counterexample: with a digest-shaped hash function, verifying any
candidate against an empty stored hash throws the equal-length RangeError of
the comparison primitive instead of returning false, refuting the claim that
malformed stored hashes are caught and translated to false. -/
theorem verify_throws_on_short_stored_hash :
    sha256HexShape constHash ∧
    ApiKeyService.verify constHash "candidate" "" =
      .error "Input buffers must have the same byte length" ∧
    ApiKeyService.verify constHash "candidate" "" ≠ .ok false := by
  have h2 : ApiKeyService.verify constHash "candidate" "" =
      .error "Input buffers must have the same byte length" := rfl
  refine ⟨?_, h2, ?_⟩
  · intro s
    refine ⟨rfl, ?_⟩
    show ∀ c ∈ hex64.toList, (hexDigitVal? c).isSome = true
    decide
  · intro hcontra
    rw [h2] at hcontra
    exact Except.noConfusion hcontra

/-- C4 amended: verify compares the hex decodings of the candidate's digest
and of the stored string; when the stored string decodes to the 32 bytes a
sha256 digest decodes to, it returns their byte equality (in particular true
when the stored hash is the candidate's digest), and when the stored string
decodes to any other byte length it throws the RangeError of
crypto.timingSafeEqual instead of returning false. -/
theorem verify_amended (hashFn : String → String) (hsh : sha256HexShape hashFn)
    (candidate stored : String) :
    ((hexDecodeBytes stored.toList).length = 32 →
      ApiKeyService.verify hashFn candidate stored =
        .ok (hexDecodeBytes (hashFn candidate).toList == hexDecodeBytes stored.toList)) ∧
    ((hexDecodeBytes stored.toList).length ≠ 32 →
      ApiKeyService.verify hashFn candidate stored =
        .error "Input buffers must have the same byte length") ∧
    (stored = hashFn candidate → ApiKeyService.verify hashFn candidate stored = .ok true) := by
  obtain ⟨hlen, hhex⟩ := hsh candidate
  have hdig : (hexDecodeBytes (hashFn candidate).toList).length = 32 := by
    rw [hexDecodeBytes_length _ hhex, hlen]
  refine ⟨?_, ?_, ?_⟩
  · intro hs
    simp only [ApiKeyService.verify, timingSafeEqual]
    rw [hdig, hs, if_neg (by omega)]
  · intro hs
    simp only [ApiKeyService.verify, timingSafeEqual]
    rw [hdig, if_pos (Ne.symm hs)]
  · intro hs
    subst hs
    simp only [ApiKeyService.verify, timingSafeEqual]
    rw [if_neg (fun h => h rfl)]
    simp

/-- C4 amended witness: the amended statement applied to the digest-shaped
stand-in hash: a round trip verifies to ok true, and a stored hash decoding
to zero bytes makes verify throw. -/
theorem verify_amended_witness :
    ApiKeyService.verify constHash "candidate" (constHash "candidate") = .ok true ∧
    ApiKeyService.verify constHash "candidate" "" =
      .error "Input buffers must have the same byte length" := by
  have hsh : sha256HexShape constHash := by
    intro s
    refine ⟨rfl, ?_⟩
    show ∀ c ∈ hex64.toList, (hexDigitVal? c).isSome = true
    decide
  refine ⟨?_, ?_⟩
  · exact (verify_amended constHash hsh "candidate" (constHash "candidate")).2.2 rfl
  · exact (verify_amended constHash hsh "candidate" "").2.1 (by decide)

/-- In a pairwise-related list, every element is related to the last one,
provided the relation is reflexive. -/
theorem rel_getLast_of_pairwise {α : Type} {R : α → α → Prop} (hrefl : ∀ a, R a a) :
    ∀ (l : List α) (h : l ≠ []), l.Pairwise R → ∀ x ∈ l, R x (l.getLast h)
  | [], h => absurd rfl h
  | [a], _ => fun _ x hx => by
      rcases List.mem_singleton.mp hx with rfl
      simpa using hrefl x
  | a :: b :: t, _ => fun hp x hx => by
      rw [List.getLast_cons (by simp : b :: t ≠ [])]
      rcases List.mem_cons.mp hx with rfl | hx2
      · exact (List.pairwise_cons.mp hp).1 _ (List.getLast_mem _)
      · exact rel_getLast_of_pairwise hrefl (b :: t) (by simp)
          (List.pairwise_cons.mp hp).2 x hx2

/-- The last element of an insertion sort by a total transitive relation is a
maximum of the original list, and it exists when the list is nonempty. -/
theorem exists_getLast?_insertionSort {α : Type} (r : α → α → Prop) [DecidableRel r]
    (htot : ∀ a b, r a b ∨ r b a) (htrans : ∀ a b c, r a b → r b c → r a c)
    (l : List α) (hne : l ≠ []) :
    ∃ m, (l.insertionSort r).getLast? = some m ∧ m ∈ l ∧ ∀ x ∈ l, r x m := by
  haveI : IsTotal α r := ⟨htot⟩
  haveI : IsTrans α r := ⟨fun a b c => htrans a b c⟩
  have hsort := List.sorted_insertionSort r l
  have hperm := List.perm_insertionSort r l
  have hLne : l.insertionSort r ≠ [] := by
    intro h0
    rw [h0] at hperm
    exact hne hperm.nil_eq.symm
  refine ⟨(l.insertionSort r).getLast hLne, List.getLast?_eq_getLast _ hLne, ?_, ?_⟩
  · exact (List.mem_insertionSort r).mp (List.getLast_mem hLne)
  · intro x hx
    exact rel_getLast_of_pairwise (fun a => (htot a a).elim id id) _ hLne hsort x
      ((List.mem_insertionSort r).mpr hx)

/-- C5 counterexample: a reverse query at the origin with two candidates, one
at distance two and one at distance ten, and no exact coordinate match. The
client selects the distance-ten candidate - the last element of the
ascending distance sort - although the distance-two candidate is strictly
closer, refuting the claim that the closest candidate is selected. -/
theorem findNearestLocationMatch_picks_farthest :
    findNearestLocationMatch [resultNear, resultFar] (.inr (0, 0)) = .ok resultFar ∧
    l1Distance resultNear.lat resultNear.lng 0 0 <
      l1Distance resultFar.lat resultFar.lng 0 0 := by
  have h1 : ((1 : ℚ) == 0) = false := by norm_num
  have h5 : ((5 : ℚ) == 0) = false := by norm_num
  constructor
  · norm_num [findNearestLocationMatch, rankedByDistance, resultNear, resultFar,
      List.insertionSort, List.orderedInsert, l1Distance, List.find?, h1, h5]
  · norm_num [l1Distance, resultNear, resultFar]

/-- C5 amended: when a reverse (coordinate) query matches no candidate
exactly, the client deterministically selects the last element of the stable
ascending sort by the L1 coordinate distance - a candidate of MAXIMAL
distance from the query (the farthest, not the closest), ties resolved to the
last-occurring equidistant candidate; when a forward (address) query matches
no candidate exactly, the client raises the error "No match found" instead of
selecting by distance. -/
theorem findNearestLocationMatch_selects_extreme (results : List GeocodeResult)
    (qLat qLng : ℚ) (s : String) :
    (results.find? (fun r => r.lat == qLat && r.lng == qLng) = none → results ≠ [] →
      ∃ m, findNearestLocationMatch results (.inr (qLat, qLng)) = .ok m ∧
        m ∈ results ∧
        ∀ r ∈ results, l1Distance r.lat r.lng qLat qLng ≤ l1Distance m.lat m.lng qLat qLng) ∧
    (results.find? (fun r => r.formatted_address == s) = none →
      findNearestLocationMatch results (.inl s) = .error "No match found") := by
  constructor
  · intro hfind hne
    obtain ⟨m, hm, hmem, hmax⟩ := @exists_getLast?_insertionSort GeocodeResult
      (fun a b => l1Distance a.lat a.lng qLat qLng ≤ l1Distance b.lat b.lng qLat qLng)
      (fun a b => Rat.instDecidableLe _ _)
      (fun a b => le_total _ _) (fun a b c hab hbc => le_trans hab hbc) results hne
    have hm2 : (rankedByDistance results qLat qLng).getLast? = some m := hm
    refine ⟨m, ?_, hmem, hmax⟩
    simp only [findNearestLocationMatch, hfind, hm2]
  · intro hfind
    simp only [findNearestLocationMatch, hfind]

/-- C5 amended witness: the amended statement instantiated at the two-element
candidate list and the origin query, and at an unmatched address query. -/
theorem findNearestLocationMatch_selects_extreme_witness :
    (∃ m, findNearestLocationMatch [resultNear, resultFar] (.inr (0, 0)) = .ok m ∧
      m ∈ [resultNear, resultFar] ∧
      ∀ r ∈ [resultNear, resultFar],
        l1Distance r.lat r.lng 0 0 ≤ l1Distance m.lat m.lng 0 0) ∧
    findNearestLocationMatch [resultNear, resultFar] (.inl "Elsewhere") =
      .error "No match found" := by
  have h1 : ((1 : ℚ) == 0) = false := by norm_num
  have h5 : ((5 : ℚ) == 0) = false := by norm_num
  have hfind : [resultNear, resultFar].find? (fun r => r.lat == (0:ℚ) && r.lng == (0:ℚ)) = none := by
    norm_num [List.find?, resultNear, resultFar, h1, h5]
  have hfind2 : [resultNear, resultFar].find?
      (fun r => r.formatted_address == "Elsewhere") = none := by
    decide
  exact ⟨(findNearestLocationMatch_selects_extreme [resultNear, resultFar] 0 0 "Elsewhere").1
      hfind (by simp),
    (findNearestLocationMatch_selects_extreme [resultNear, resultFar] 0 0 "Elsewhere").2 hfind2⟩

/-- Unfolding of the string branch of coerceCoordinates. -/
theorem coerceCoordinates_str (parseNum : String → JSNum) (s : String) :
    coerceCoordinates parseNum (.str s) =
      if isNaNopt (((jsSplitComma s).map parseNum).get? 0) ||
          isNaNopt (((jsSplitComma s).map parseNum).get? 1) then
        .error "Invalid string coordinates format"
      else
        .ok ⟨((jsSplitComma s).map parseNum).get? 0,
          ((jsSplitComma s).map parseNum).get? 1⟩ := rfl

/-- C6 counterexample: normalizing the numeric tuple [10, 20] yields latitude
10 and longitude 20 - the first element is taken as the LATITUDE - whereas
the claim (first element is the longitude, GeoJSON order) demands latitude 20
and longitude 10, a different geographic point. -/
theorem coerceCoordinates_tuple_order :
    coerceCoordinates (fun _ => JSNum.nan) (.arr (.num 10) (.num 20)) =
      .ok ⟨some (.num 10), some (.num 20)⟩ ∧
    CoercedCoords.mk (some (.num 10)) (some (.num 20)) ≠
      CoercedCoords.mk (some (.num 20)) (some (.num 10)) := by
  exact ⟨rfl, by decide⟩

/-- C6 amended: coordinate normalization accepts the four documented shapes
but interprets a numeric tuple as latitude-first, [lat, lng] (contrary to the
GeoJSON [lng, lat] order used elsewhere): the first tuple element becomes the
latitude. A comma-separated string is parsed latitude-first; object shapes
map their named fields; NaN components in the string or tuple branch, a
non-number field in either object shape, and every other shape fail with a
typed error. -/
theorem coerceCoordinates_amended (parseNum : String → JSNum) :
    (∀ a b : JSNum, a ≠ .nan → b ≠ .nan →
      coerceCoordinates parseNum (.arr a b) = .ok ⟨some a, some b⟩) ∧
    (∀ a b : JSNum, a = .nan ∨ b = .nan →
      coerceCoordinates parseNum (.arr a b) = .error "Invalid array coordinates format") ∧
    (∀ lat lng : JSNum,
      coerceCoordinates parseNum (.objLatLng (.n lat) (.n lng)) = .ok ⟨some lat, some lng⟩) ∧
    (∀ la lo : JSNum,
      coerceCoordinates parseNum (.objVerbose (.n la) (.n lo)) = .ok ⟨some la, some lo⟩) ∧
    (∀ s : String,
      (isNaNopt (((jsSplitComma s).map parseNum).get? 0) = false →
        isNaNopt (((jsSplitComma s).map parseNum).get? 1) = false →
        coerceCoordinates parseNum (.str s) =
          .ok ⟨((jsSplitComma s).map parseNum).get? 0, ((jsSplitComma s).map parseNum).get? 1⟩) ∧
      (isNaNopt (((jsSplitComma s).map parseNum).get? 0) = true ∨
        isNaNopt (((jsSplitComma s).map parseNum).get? 1) = true →
        coerceCoordinates parseNum (.str s) = .error "Invalid string coordinates format")) ∧
    (∀ v w : JSVal, v = .notNum ∨ w = .notNum →
      coerceCoordinates parseNum (.objLatLng v w) = .error "Invalid coordinates" ∧
      coerceCoordinates parseNum (.objVerbose v w) = .error "Invalid coordinates") ∧
    coerceCoordinates parseNum .other = .error "Invalid coordinates" := by
  refine ⟨?_, ?_, fun lat lng => rfl, fun la lo => rfl, ?_, ?_, rfl⟩
  · intro a b ha hb
    have ha' : (a == JSNum.nan) = false := beq_eq_false_iff_ne.mpr ha
    have hb' : (b == JSNum.nan) = false := beq_eq_false_iff_ne.mpr hb
    simp [coerceCoordinates, ha', hb']
  · intro a b h
    rcases h with rfl | rfl <;> simp [coerceCoordinates]
  · intro s
    constructor
    · intro h0 h1
      rw [coerceCoordinates_str, h0, h1]
      rfl
    · intro h
      rcases h with h | h
      · rw [coerceCoordinates_str, h]
        rfl
      · rw [coerceCoordinates_str, h, Bool.or_true]
        rfl
  · intro v w h
    rcases h with rfl | rfl
    · cases w <;> exact ⟨rfl, rfl⟩
    · cases v <;> exact ⟨rfl, rfl⟩

/-- C6 amended witness: the amended statement instantiated at the fixture
parser and concrete inputs of each shape. -/
theorem coerceCoordinates_amended_witness :
    coerceCoordinates parseNumFixture (.arr (.num 3) (.num 4)) =
      .ok ⟨some (.num 3), some (.num 4)⟩ ∧
    coerceCoordinates parseNumFixture (.arr .nan (.num 4)) =
      .error "Invalid array coordinates format" ∧
    coerceCoordinates parseNumFixture (.objLatLng (.n (.num 3)) (.n (.num 4))) =
      .ok ⟨some (.num 3), some (.num 4)⟩ ∧
    coerceCoordinates parseNumFixture (.objVerbose (.n (.num 3)) (.n (.num 4))) =
      .ok ⟨some (.num 3), some (.num 4)⟩ ∧
    coerceCoordinates parseNumFixture (.str "1,2") =
      .ok ⟨some (.num 1), some (.num 2)⟩ ∧
    coerceCoordinates parseNumFixture (.str "oops") =
      .error "Invalid string coordinates format" ∧
    coerceCoordinates parseNumFixture (.objLatLng .notNum (.n (.num 4))) =
      .error "Invalid coordinates" ∧
    coerceCoordinates parseNumFixture .other = .error "Invalid coordinates" := by
  have h := coerceCoordinates_amended parseNumFixture
  refine ⟨h.1 (.num 3) (.num 4) (by decide) (by decide),
    h.2.1 .nan (.num 4) (Or.inl rfl),
    h.2.2.1 (.num 3) (.num 4),
    h.2.2.2.1 (.num 3) (.num 4), ?_, ?_,
    (h.2.2.2.2.2.1 .notNum (.n (.num 4)) (Or.inl rfl)).1,
    h.2.2.2.2.2.2⟩
  · have hs := (h.2.2.2.2.1 "1,2").1 (by decide) (by decide)
    rw [hs]
    rfl
  · exact (h.2.2.2.2.1 "oops").2 (by decide)

/-- After erasing the first element whose key matches, no element with that
key is found, provided the keys were distinct. -/
theorem find?_eraseP_of_nodup_keys {α : Type} (key : α → String) :
    ∀ (l : List α), (l.map key).Nodup → ∀ i : String,
      (l.eraseP (fun x => key x == i)).find? (fun x => key x == i) = none
  | [], _, _ => rfl
  | a :: l, hnd, i => by
      rw [List.map_cons, List.nodup_cons] at hnd
      by_cases ha : key a = i
      · rw [List.eraseP_cons_of_pos (by simp [ha])]
        rw [List.find?_eq_none]
        intro x hx
        simp only [beq_iff_eq]
        intro hk
        exact hnd.1 (ha ▸ hk ▸ List.mem_map_of_mem key hx)
      · rw [List.eraseP_cons_of_neg (by simp [ha])]
        rw [List.find?_cons_of_neg _ (by simp [ha])]
        exact find?_eraseP_of_nodup_keys key l hnd.2 i

/-- Replacing the documents that carry the id of v by v preserves
findability: the first document found under that id is now v itself. -/
theorem find?_replace_by_id (v : UserDoc) :
    ∀ l : List UserDoc, (l.find? (fun u => u._id == v._id)).isSome →
      (l.map (fun w => if w._id == v._id then v else w)).find?
        (fun u => u._id == v._id) = some v
  | [], h => by simp [List.find?] at h
  | a :: l, h => by
      by_cases ha : a._id = v._id
      · rw [List.map_cons, if_pos (by simp [ha])]
        exact List.find?_cons_of_pos _ (by simp)
      · rw [List.map_cons, if_neg (by simp [ha])]
        rw [List.find?_cons_of_neg _ (by simp [ha])]
        apply find?_replace_by_id v l
        rw [List.find?_cons_of_neg _ (by simp [ha])] at h
        exact h

/-- C7: deleting an existing region removes its id from the owner's
region-reference list and deletes the region document, so that afterwards the
owner no longer references it and fetching it fails with NotFoundError;
deleting an id with no region document fails with NotFoundError and changes
nothing. -/
theorem deleteRegion_cleanup (db : DB) (rid : String) :
    (∀ r u, findRegion db rid = some r → findUser db r.user = some u →
      (db.regions.map (fun x => x._id)).Nodup →
      (deleteRegion db rid).2 = .ok 200 ∧
      (∃ u', findUser (deleteRegion db rid).1 u._id = some u' ∧ rid ∉ u'.regions) ∧
      getRegionById (deleteRegion db rid).1 rid =
        .error (.app (NotFoundError "Region not found"))) ∧
    (findRegion db rid = none →
      deleteRegion db rid = (db, .error (.app (NotFoundError "Region not found")))) := by
  constructor
  · intro r u hr hu hnd
    have huid : u._id = r.user := by
      have := List.find?_some hu
      simpa using this
    refine ⟨?_, ?_, ?_⟩
    · simp [deleteRegion, hr, hu]
    · refine ⟨{ u with regions := u.regions.filter (fun s => s != rid) }, ?_, ?_⟩
      · have hsome : (db.users.find? (fun w => w._id == u._id)).isSome := by
          show (findUser db u._id).isSome = true
          rw [huid, hu]
          rfl
        have hrep := find?_replace_by_id
          { u with regions := u.regions.filter (fun s => s != rid) } db.users hsome
        simp only [deleteRegion, hr, hu]
        exact hrep
      · simp [List.mem_filter]
    · have hregs : (deleteRegion db rid).1.regions =
          db.regions.eraseP (fun x => x._id == rid) := by
        simp [deleteRegion, hr, hu, saveUser]
      simp only [getRegionById, findRegion, hregs]
      rw [find?_eraseP_of_nodup_keys (fun x => x._id) db.regions hnd rid]
  · intro hr0
    simp [deleteRegion, hr0]

/-- C7 witness: the cleanup statement at the database where the sample user
owns the sample region, and at a missing region id. -/
theorem deleteRegion_cleanup_witness :
    ((deleteRegion dbUserWithRegion "r1").2 = .ok 200 ∧
      (∃ u', findUser (deleteRegion dbUserWithRegion "r1").1 "u1" = some u' ∧
        "r1" ∉ u'.regions) ∧
      getRegionById (deleteRegion dbUserWithRegion "r1").1 "r1" =
        .error (.app (NotFoundError "Region not found"))) ∧
    deleteRegion dbUserWithRegion "missing" =
      (dbUserWithRegion, .error (.app (NotFoundError "Region not found"))) := by
  constructor
  · exact (deleteRegion_cleanup dbUserWithRegion "r1").1 sampleRegion
      { sampleUser with regions := ["r1"] } rfl rfl (by decide)
  · exact (deleteRegion_cleanup dbUserWithRegion "missing").2 rfl

/-- A full page bound: a collection of n items fits in (n + l - 1) / l pages
of l items each. -/
theorem le_div_mul_of_pred (n l : ℕ) (hl : 0 < l) : n ≤ ((n + l - 1) / l) * l := by
  rcases Nat.eq_zero_or_pos n with rfl | hn
  · simp
  · obtain ⟨m, rfl⟩ : ∃ m, n = m + 1 := ⟨n - 1, by omega⟩
    have hq : (m + 1 + l - 1) / l = (m + l) / l := by
      congr 1
      omega
    rw [hq]
    have h2 : m + l < ((m + l) / l + 1) * l :=
      (Nat.div_lt_iff_lt_mul hl).mp (Nat.lt_succ_self _)
    have h3 : ((m + l) / l + 1) * l = (m + l) / l * l + l := by
      rw [Nat.succ_mul]
    rw [h3] at h2
    exact Nat.succ_le_of_lt (Nat.lt_of_add_lt_add_right h2)

/-- Rounding-up division on naturals computes the rational ceiling:
(n + l - 1) / l is the ceiling of n / l. -/
theorem natCeil_div_eq (n l : ℕ) (hl : 0 < l) :
    ⌈(n : ℚ) / (l : ℚ)⌉₊ = (n + l - 1) / l := by
  have hlq : (0 : ℚ) < l := by exact_mod_cast hl
  rcases Nat.eq_zero_or_pos n with rfl | hn
  · have h0 : 0 + l - 1 = l - 1 := by omega
    rw [Nat.cast_zero, zero_div, Nat.ceil_zero, h0,
      Nat.div_eq_of_lt (by omega)]
  · have hq1 : 1 ≤ (n + l - 1) / l := by
      rw [Nat.one_le_div_iff hl]
      omega
    rw [Nat.ceil_eq_iff (by omega : (n + l - 1) / l ≠ 0)]
    constructor
    · rw [lt_div_iff₀ hlq]
      have hub : (n + l - 1) / l * l ≤ n + l - 1 := Nat.div_mul_le_self _ _
      have hkey : ((n + l - 1) / l - 1) * l + l = (n + l - 1) / l * l := by
        rw [Nat.sub_mul, Nat.one_mul]
        refine Nat.sub_add_cancel ?_
        calc l = 1 * l := (Nat.one_mul l).symm
          _ ≤ (n + l - 1) / l * l := Nat.mul_le_mul_right l hq1
      have hlt : ((n + l - 1) / l - 1) * l < n := by
        rw [← hkey] at hub
        generalize hB : ((n + l - 1) / l - 1) * l = B at hub ⊢
        omega
      calc ((((n + l - 1) / l - 1) : ℕ) : ℚ) * (l : ℚ)
          = ((((n + l - 1) / l - 1) * l : ℕ) : ℚ) := by push_cast; ring
        _ < (n : ℚ) := by exact_mod_cast hlt
    · rw [div_le_iff₀ hlq]
      have h := le_div_mul_of_pred n l hl
      calc (n : ℚ) ≤ (((n + l - 1) / l * l : ℕ) : ℚ) := by exact_mod_cast h
        _ = (((n + l - 1) / l : ℕ) : ℚ) * (l : ℚ) := by push_cast; ring

/-- C8: for every collection and every query with page and limit at least one,
paginate returns the documents at offset (page - 1) * limit, reports the
filtered total, computes totalPages as the ceiling of totalItems / limit, has
a next page exactly when the page is below totalPages, and a page past the
last page yields an empty data array (with the same correctly computed
metadata) rather than an error. -/
theorem paginate_boundary (α : Type) (docs : List α) (f : α → Bool) (page limit : Nat)
    (hp : 1 ≤ page) (hl : 1 ≤ limit) :
    (paginate docs f page limit).data =
      ((docs.filter f).drop ((page - 1) * limit)).take limit ∧
    (paginate docs f page limit).meta.totalItems = (docs.filter f).length ∧
    (paginate docs f page limit).meta.totalPages =
      ⌈(((docs.filter f).length : ℚ)) / ((limit : ℚ))⌉₊ ∧
    ((paginate docs f page limit).meta.hasNextPage = true ↔
      page < (paginate docs f page limit).meta.totalPages) ∧
    ((paginate docs f page limit).meta.totalPages < page →
      (paginate docs f page limit).data = []) := by
  refine ⟨rfl, rfl, ?_, ?_, ?_⟩
  · show ((docs.filter f).length + limit - 1) / limit = _
    exact (natCeil_div_eq _ _ hl).symm
  · show decide (page < ((docs.filter f).length + limit - 1) / limit) = true ↔
      page < ((docs.filter f).length + limit - 1) / limit
    exact decide_eq_true_iff
  · intro hlt
    have hlt2 : ((docs.filter f).length + limit - 1) / limit < page := hlt
    show ((docs.filter f).drop ((page - 1) * limit)).take limit = []
    have h1 : (docs.filter f).length ≤
        (((docs.filter f).length + limit - 1) / limit) * limit :=
      le_div_mul_of_pred _ _ hl
    have h2 : (((docs.filter f).length + limit - 1) / limit) * limit ≤
        (page - 1) * limit :=
      Nat.mul_le_mul_right limit (by omega)
    rw [List.drop_eq_nil_of_le (le_trans h1 h2)]
    exact List.take_nil

/-- C8 witness: the boundary statement at the spec's own example, page 1000
with limit 10 over a two-item collection: empty data, totalItems two, and no
next page. -/
theorem paginate_boundary_witness :
    (paginate [1, 2] (fun _ => true) 1000 10).data = ([] : List ℕ) ∧
    (paginate [1, 2] (fun _ => true) 1000 10).meta.totalItems = 2 ∧
    (paginate [1, 2] (fun _ => true) 1000 10).meta.hasNextPage = false := by
  have h := paginate_boundary ℕ [1, 2] (fun _ => true) 1000 10 (by omega) (by omega)
  refine ⟨h.2.2.2.2 (by decide), ?_, ?_⟩
  · rw [h.2.1]
    rfl
  · rw [Bool.eq_false_iff]
    intro hc
    exact absurd (h.2.2.2.1.mp hc) (by decide)

end Oztest
